import Mathlib

/-!
Shallow embedding of the beyondthefarm supply-chain application.

The data model and the row-level-security (RLS) policies are translated from
`src/supabase/migrations/20260124161938_*.sql` (the last migration file, whose
batch INSERT policy re-adds the farmer-role check on top of the ownership
check) together with the initial schema in the same file.  The four serverless
request handlers are translated from
`src/supabase/functions/calculate-route/index.ts`,
`src/unnamed/part_000` (create-batch),
`src/supabase/functions/fetch-environmental-data/index.ts` and
`src/supabase/functions/analyze-batch/index.ts`.
The client-side batch operations and their UI guards are translated from
`src/unnamed/part_011` (useBatches), `src/unnamed/part_004`
(TransportUpdateForm), `src/components/batch/BatchDetailSheet.tsx` and
`src/components/batch/VendorReceiptForm.tsx`.

External HTTP services (the routing API, the weather API, the LLM gateway) are
modelled as explicit outcome parameters passed to the handlers; database ids
and user ids are strings (uuids in the source).  JavaScript truthiness of the
validated request fields is modelled exactly: the empty string and the number
0 are falsy.

Standard RLS semantics from the policy engine are applied to every database
statement a handler issues through the caller-scoped (anon-key) client:
SELECT filters rows by the USING predicates, INSERT errors when the WITH CHECK
predicate fails, UPDATE silently affects only the rows passing the USING
predicate of an UPDATE policy (and a table with no UPDATE policy accepts no
update at all).  Statements issued through the service-role client (used by
the create-batch handler, see its comment "Service client for privileged DB
actions (RLS bypass)") bypass RLS.
-/

namespace BeyondTheFarm

/-- `app_role` enum from the schema migration. -/
inductive AppRole
  | farmer
  | transporter
  | vendor
  deriving DecidableEq, Repr

/-- `batch_status` enum from the schema migration. -/
inductive BatchStatus
  | created
  | assigned_transporter
  | picked_up
  | in_transit
  | delivered
  | received
  | analyzed
  deriving DecidableEq, Repr

/-- Position of a status in the total order
`created < assigned_transporter < picked_up < in_transit < delivered <
received < analyzed` (the declaration order of the `batch_status` enum). -/
def BatchStatus.idx : BatchStatus → Nat
  | .created => 0
  | .assigned_transporter => 1
  | .picked_up => 2
  | .in_transit => 3
  | .delivered => 4
  | .received => 5
  | .analyzed => 6

/-- A row of `public.batches` (the columns the claims depend on). -/
structure BatchRow where
  id : String
  farmer_id : String
  status : BatchStatus
  deriving DecidableEq, Repr

/-- A row of `public.transport_logs` (key columns only). -/
structure TransportLogRow where
  batch_id : String
  transporter_id : String
  deriving DecidableEq, Repr

/-- A row of `public.vendor_receipts` (key columns only). -/
structure VendorReceiptRow where
  batch_id : String
  vendor_id : String
  deriving DecidableEq, Repr

/-- A row of `public.environmental_data` (the columns written by the
handlers). -/
structure EnvRow where
  batch_id : String
  stage : String
  gps_lat : Int
  gps_lng : Int
  temperature_celsius : Int
  humidity_percentage : Int
  weather_condition : String
  air_quality_index : Option Int
  uv_index : Int
  precipitation_mm : Int
  wind_speed_kmh : Int
  deriving DecidableEq, Repr

/-- A row of `public.ai_analysis` (`batch_id` carries a UNIQUE constraint in
the schema). -/
structure AIAnalysisRow where
  batch_id : String
  degradation_point : String
  environmental_impact : String
  confidence_level : String
  farmer_suggestions : String
  transporter_suggestions : String
  vendor_suggestions : String
  deriving DecidableEq, Repr

/-- The database state: the tables of the schema that the claims touch.
`user_roles` is a list of (user_id, role) pairs; the schema's
UNIQUE (user_id, role) allows several roles per user, and the policy
"Users can insert own role" lets any authenticated user add a role for
themselves. -/
structure DB where
  user_roles : List (String × AppRole)
  batches : List BatchRow
  transport_logs : List TransportLogRow
  vendor_receipts : List VendorReceiptRow
  environmental_data : List EnvRow
  ai_analysis : List AIAnalysisRow
  deriving DecidableEq, Repr

/-- `public.has_role(_user_id, _role)`: EXISTS row in `user_roles` with this
user and role. -/
def has_role (db : DB) (u : String) (r : AppRole) : Bool :=
  db.user_roles.any (fun p => p.1 == u && p.2 == r)

/-- `public.is_batch_participant(_batch_id, _user_id)`: the user is the
batch's farmer, or a transporter of one of its transport logs, or a vendor of
one of its vendor receipts. -/
def is_batch_participant (db : DB) (b : String) (u : String) : Bool :=
  db.batches.any (fun row => row.id == b && row.farmer_id == u)
  || db.transport_logs.any (fun t => t.batch_id == b && t.transporter_id == u)
  || db.vendor_receipts.any (fun v => v.batch_id == b && v.vendor_id == u)

/-- Policy "Farmers can create batches" (final version, migration
`20260124161938`): WITH CHECK `auth.uid() = farmer_id AND
has_role(auth.uid(), 'farmer')`. -/
def batchesInsertPolicy (db : DB) (uid : String) (row : BatchRow) : Bool :=
  uid == row.farmer_id && has_role db uid .farmer

/-- The combined SELECT policy set on `public.batches`:
"Participants can view batches", "Transporters can view created batches",
"Vendors can view in-transit batches" (a row is visible when any SELECT
policy's USING predicate accepts it). -/
def batchesSelectPolicy (db : DB) (uid : String) (row : BatchRow) : Bool :=
  is_batch_participant db row.id uid
  || (has_role db uid .transporter && row.status == .created)
  || (has_role db uid .vendor
        && (row.status == .in_transit || row.status == .delivered))

/-- Policy "Farmers can update own batches": USING `farmer_id = auth.uid()`
(the only UPDATE policy on `public.batches`). -/
def batchesUpdatePolicy (uid : String) (row : BatchRow) : Bool :=
  row.farmer_id == uid

/-- Policy "Transporters can create transport logs" (final version):
WITH CHECK ownership of `transporter_id` plus the transporter role. -/
def transportLogsInsertPolicy (db : DB) (uid : String) (t : TransportLogRow) : Bool :=
  uid == t.transporter_id && has_role db uid .transporter

/-- Policy "Vendors can create receipts": WITH CHECK ownership of `vendor_id`
plus the vendor role. -/
def vendorReceiptsInsertPolicy (db : DB) (uid : String) (v : VendorReceiptRow) : Bool :=
  uid == v.vendor_id && has_role db uid .vendor

/-- Policy "Participants can view receipts" on `public.vendor_receipts`. -/
def vendorReceiptsSelectPolicy (db : DB) (uid : String) (v : VendorReceiptRow) : Bool :=
  is_batch_participant db v.batch_id uid

/-- Policy "Participants can insert environmental data". -/
def envInsertPolicy (db : DB) (uid : String) (e : EnvRow) : Bool :=
  is_batch_participant db e.batch_id uid

/-- Policy "Participants can insert AI analysis".  Note that `ai_analysis`
has SELECT and INSERT policies only: the migration declares no UPDATE policy
for it. -/
def aiInsertPolicy (db : DB) (uid : String) (a : AIAnalysisRow) : Bool :=
  is_batch_participant db a.batch_id uid

/-! ### Request authentication

Each authenticated handler runs
`authHeader?.startsWith("Bearer ")` and then `auth.getClaims(token)`,
rejecting with 401 when either step fails.  The header and the identity the
auth provider resolves for its token are inputs to the handler. -/

/-- The `Authorization` header of a request together with the outcome of the
managed auth provider's `getClaims` call on its token (`some uid` means the
claims contained a subject `sub = uid`; `none` covers both a claims error and
a missing subject). -/
structure AuthInput where
  header : Option String
  resolvedUser : Option String
  deriving DecidableEq, Repr

/-- JavaScript `String.prototype.startsWith`, expressed over the character
lists of the strings. -/
def strStartsWith (s p : String) : Bool :=
  p.data.isPrefixOf s.data

/-- `authHeader?.startsWith("Bearer ")`. -/
def bearerHeaderOk : Option String → Bool
  | some s => strStartsWith s "Bearer "
  | none => false

/-- The request carries a bearer header and the auth provider resolves a
caller identity for it. -/
def authValid (a : AuthInput) : Bool :=
  bearerHeaderOk a.header && a.resolvedUser.isSome

/-- Outcome of a PostgREST `maybeSingle()` query: no row, one row, or an
error (raised when more than one row matches). -/
inductive MaybeSingle (α : Type) where
  | noRow
  | one (a : α)
  | err
  deriving DecidableEq, Repr

/-- `maybeSingle` over the matching rows. -/
def maybeSingle {α : Type} : List α → MaybeSingle α
  | [] => .noRow
  | [a] => .one a
  | _ :: _ :: _ => .err

/-- The roles recorded for a user (`select role from user_roles where
user_id = ...`). -/
def rolesOf (db : DB) (u : String) : List AppRole :=
  (db.user_roles.filter (fun p => p.1 == u)).map (fun p => p.2)

/-! ### create-batch handler (src/unnamed/part_000)

The handler verifies the bearer token, looks the caller's role up with the
service-role client (403 unless it is `farmer`), validates the required body
fields by JavaScript truthiness, inserts the batch with the service-role
client (RLS bypass) naming the caller as `farmer_id`, and then, when both GPS
coordinates are truthy, best-effort fetches weather data and stores a
`stage = "harvest"` environmental row, ignoring failures of that step. -/

/-- The request body of create-batch (`CreateBatchPayload`). -/
structure CreateBatchPayload where
  crop_type : String
  harvest_time : String
  expected_quality : String
  quantity_kg : Int
  farm_gps_lat : Option Int
  farm_gps_lng : Option Int
  farm_address : Option String
  notes : Option String
  deriving DecidableEq, Repr

/-- Parsed result of `fetchWeatherData` when the weather API call succeeds
(all failure paths of that function return `null`, modelled as `none`). -/
structure WeatherData where
  temperature_celsius : Int
  humidity_percentage : Int
  weather_condition : String
  air_quality_index : Option Int
  uv_index : Int
  precipitation_mm : Int
  wind_speed_kmh : Int
  deriving DecidableEq, Repr

/-- JavaScript truthiness of an optional numeric field (absent, null and 0
are falsy). -/
def truthyOptNum : Option Int → Bool
  | some n => n != 0
  | none => false

/-- Outcome of one create-batch invocation. -/
structure CreateBatchResult where
  status : Nat
  db : DB
  insertedBatch : Option BatchRow
  weatherFetched : Bool
  deriving DecidableEq, Repr

/-- The environmental row the create-batch handler stores for the harvest
stage. -/
def harvestEnvRow (batchId : String) (lat lng : Int) (w : WeatherData) : EnvRow :=
  { batch_id := batchId
    stage := "harvest"
    gps_lat := lat
    gps_lng := lng
    temperature_celsius := w.temperature_celsius
    humidity_percentage := w.humidity_percentage
    weather_condition := w.weather_condition
    air_quality_index := w.air_quality_index
    uv_index := w.uv_index
    precipitation_mm := w.precipitation_mm
    wind_speed_kmh := w.wind_speed_kmh }

/-- The create-batch handler.  `newId` is the generated primary key,
`insertOk` the success of the privileged INSERT statement, `weather` the
result of `fetchWeatherData`, `envInsertOk` the success of the best-effort
environmental INSERT (both inserts run on the service-role client and bypass
RLS). -/
def createBatchHandler (db : DB) (a : AuthInput) (body : CreateBatchPayload)
    (newId : String) (insertOk : Bool) (weather : Option WeatherData)
    (envInsertOk : Bool) : CreateBatchResult :=
  if !bearerHeaderOk a.header then
    { status := 401, db := db, insertedBatch := none, weatherFetched := false }
  else
    match a.resolvedUser with
    | none =>
      { status := 401, db := db, insertedBatch := none, weatherFetched := false }
    | some uid =>
      match maybeSingle (rolesOf db uid) with
      | .err =>
        { status := 500, db := db, insertedBatch := none, weatherFetched := false }
      | .noRow =>
        -- `roleRow?.role !== "farmer"` with `roleRow` null
        { status := 403, db := db, insertedBatch := none, weatherFetched := false }
      | .one r =>
        if r != .farmer then
          { status := 403, db := db, insertedBatch := none, weatherFetched := false }
        else if body.crop_type == "" || body.harvest_time == ""
            || body.expected_quality == "" || body.quantity_kg == 0 then
          { status := 400, db := db, insertedBatch := none, weatherFetched := false }
        else if !insertOk then
          { status := 500, db := db, insertedBatch := none, weatherFetched := false }
        else
          let row : BatchRow := { id := newId, farmer_id := uid, status := .created }
          let db1 : DB := { db with batches := db.batches ++ [row] }
          if truthyOptNum body.farm_gps_lat && truthyOptNum body.farm_gps_lng then
            match weather with
            | some w =>
              let env := harvestEnvRow newId (body.farm_gps_lat.getD 0)
                (body.farm_gps_lng.getD 0) w
              if envInsertOk then
                { status := 200
                  db := { db1 with
                    environmental_data := db1.environmental_data ++ [env] }
                  insertedBatch := some row, weatherFetched := true }
              else
                -- "Don't fail batch creation for this"
                { status := 200, db := db1, insertedBatch := some row
                  weatherFetched := true }
            | none =>
              { status := 200, db := db1, insertedBatch := some row
                weatherFetched := true }
          else
            { status := 200, db := db1, insertedBatch := some row
              weatherFetched := false }

/-! ### fetch-environmental-data handler
(src/supabase/functions/fetch-environmental-data/index.ts)

After the bearer checks the handler validates `batch_id`, `stage`,
`latitude`, `longitude` by truthiness (400 when any is falsy — 0 coordinates
included), calls the LLM gateway for weather data, maps a gateway HTTP
failure to 429/402/500, uses the tool-call arguments when present and fixed
fallback values otherwise, and inserts one `environmental_data` row through
the caller-scoped client (RLS applies: the WITH CHECK predicate is the
participant policy; a rejected insert yields the 500 "Failed to save
environmental data" response). -/

/-- The JSON body of a fetch-environmental-data request. -/
structure FetchEnvRequest where
  batch_id : String
  stage : String
  latitude : Int
  longitude : Int
  deriving DecidableEq, Repr

/-- The seven numeric/string weather fields the gateway tool call returns
(`envData` in the source). -/
structure EnvValues where
  temperature_celsius : Int
  humidity_percentage : Int
  weather_condition : String
  air_quality_index : Int
  uv_index : Int
  precipitation_mm : Int
  wind_speed_kmh : Int
  deriving DecidableEq, Repr

/-- The fixed fallback values used when the gateway response carries no
tool-call arguments. -/
def fallbackEnvValues : EnvValues :=
  { temperature_celsius := 25
    humidity_percentage := 60
    weather_condition := "Unknown"
    air_quality_index := 50
    uv_index := 5
    precipitation_mm := 0
    wind_speed_kmh := 10 }

/-- Outcome of the LLM-gateway call made by fetch-environmental-data:
an HTTP failure with its status, or a success whose first tool call is
present (with parsed arguments) or absent. -/
inductive EnvGateway where
  | httpFail (status : Nat)
  | okNoToolCall
  | okToolCall (v : EnvValues)
  deriving DecidableEq, Repr

/-- Outcome of one fetch-environmental-data invocation. -/
structure FetchEnvResult where
  status : Nat
  db : DB
  insertedRow : Option EnvRow
  gatewayCalled : Bool
  deriving DecidableEq, Repr

/-- The environmental row built from the request and the (tool-call or
fallback) values. -/
def fetchEnvRow (req : FetchEnvRequest) (v : EnvValues) : EnvRow :=
  { batch_id := req.batch_id
    stage := req.stage
    gps_lat := req.latitude
    gps_lng := req.longitude
    temperature_celsius := v.temperature_celsius
    humidity_percentage := v.humidity_percentage
    weather_condition := v.weather_condition
    air_quality_index := some v.air_quality_index
    uv_index := v.uv_index
    precipitation_mm := v.precipitation_mm
    wind_speed_kmh := v.wind_speed_kmh }

/-- The fetch-environmental-data handler.  (The `LOVABLE_API_KEY` secret is
assumed configured; a missing key throws and becomes a 500 without a gateway
call, a path no claim depends on.) -/
def fetchEnvironmentalDataHandler (db : DB) (a : AuthInput)
    (req : FetchEnvRequest) (gw : EnvGateway) : FetchEnvResult :=
  if !bearerHeaderOk a.header then
    { status := 401, db := db, insertedRow := none, gatewayCalled := false }
  else
    match a.resolvedUser with
    | none =>
      { status := 401, db := db, insertedRow := none, gatewayCalled := false }
    | some uid =>
      if req.batch_id == "" || req.stage == ""
          || req.latitude == 0 || req.longitude == 0 then
        { status := 400, db := db, insertedRow := none, gatewayCalled := false }
      else
        match gw with
        | .httpFail s =>
          if s == 429 then
            { status := 429, db := db, insertedRow := none, gatewayCalled := true }
          else if s == 402 then
            { status := 402, db := db, insertedRow := none, gatewayCalled := true }
          else
            -- throw new Error("Failed to fetch environmental data") → catch → 500
            { status := 500, db := db, insertedRow := none, gatewayCalled := true }
        | .okNoToolCall =>
          let row := fetchEnvRow req fallbackEnvValues
          if envInsertPolicy db uid row then
            { status := 200
              db := { db with environmental_data := db.environmental_data ++ [row] }
              insertedRow := some row, gatewayCalled := true }
          else
            { status := 500, db := db, insertedRow := none, gatewayCalled := true }
        | .okToolCall v =>
          let row := fetchEnvRow req v
          if envInsertPolicy db uid row then
            { status := 200
              db := { db with environmental_data := db.environmental_data ++ [row] }
              insertedRow := some row, gatewayCalled := true }
          else
            { status := 500, db := db, insertedRow := none, gatewayCalled := true }

/-! ### analyze-batch handler (src/supabase/functions/analyze-batch/index.ts)

After the bearer checks the handler validates `batch_id`, loads the batch
through the caller-scoped client (`maybeSingle`, so the RLS SELECT policies
of `batches` apply; 404 when absent or errored), loads the transport log, the
vendor receipt and the environmental rows (prompt material only — they do not
influence the modelled outcome), calls the LLM gateway (429/402 surfaced,
other failures throw and become 500), extracts the analysis from the
tool-call arguments, the message content, or a fixed fallback payload, then
upserts the `ai_analysis` row keyed on `batch_id` and updates the batch
status to `analyzed`, both through the caller-scoped client.  A failed save
is only logged; the handler still answers 200 with `success: true`. -/

/-- The structured analysis payload (tool-call schema / fallback object). -/
structure Analysis where
  degradation_point : String
  environmental_impact : String
  confidence_level : String
  farmer_suggestions : String
  transporter_suggestions : String
  vendor_suggestions : String
  summary : String
  deriving DecidableEq, Repr

/-- The fallback payload used when neither tool-call arguments nor
JSON-parsable content are present; `content` is the raw message content
(`summary` falls back to "Analysis could not be completed." when it is
null). -/
def fallbackAnalysis (content : Option String) : Analysis :=
  { degradation_point := "Unable to determine"
    environmental_impact := "Analysis incomplete"
    confidence_level := "Low"
    farmer_suggestions := "Please ensure all data is submitted for accurate analysis."
    transporter_suggestions := "Please ensure all data is submitted for accurate analysis."
    vendor_suggestions := "Please ensure all data is submitted for accurate analysis."
    summary := content.getD "Analysis could not be completed." }

/-- Outcome of the LLM-gateway call made by analyze-batch: an HTTP failure
with its status, a success with tool-call arguments, a success whose message
content parses as the JSON payload, or a success with neither. -/
inductive LLMGateway where
  | httpFail (status : Nat)
  | okToolCall (a : Analysis)
  | okContentJson (a : Analysis)
  | okContentRaw (content : Option String)
  deriving DecidableEq, Repr

/-- The analysis payload the handler derives from a successful gateway
response. -/
def gatewayAnalysis : LLMGateway → Option Analysis
  | .httpFail _ => none
  | .okToolCall a => some a
  | .okContentJson a => some a
  | .okContentRaw c => some (fallbackAnalysis c)

/-- The `ai_analysis` row the handler upserts for a batch. -/
def analysisRow (batchId : String) (a : Analysis) : AIAnalysisRow :=
  { batch_id := batchId
    degradation_point := a.degradation_point
    environmental_impact := a.environmental_impact
    confidence_level := a.confidence_level
    farmer_suggestions := a.farmer_suggestions
    transporter_suggestions := a.transporter_suggestions
    vendor_suggestions := a.vendor_suggestions }

/-- The batch lookup the handler performs:
`from("batches").select("*").eq("id", batch_id).maybeSingle()` on the
caller-scoped client, i.e. `maybeSingle` over the RLS-visible rows with this
id. -/
def userSelectBatch (db : DB) (uid : String) (batchId : String) :
    MaybeSingle BatchRow :=
  maybeSingle (db.batches.filter
    (fun b => b.id == batchId && batchesSelectPolicy db uid b))

/-- The effect of the upsert
`from("ai_analysis").upsert(row, { onConflict: "batch_id" })` on the
caller-scoped client: with no conflicting row the INSERT path runs, gated by
the WITH CHECK of "Participants can insert AI analysis"; with a conflicting
row the DO UPDATE path runs, and since `ai_analysis` has no UPDATE policy the
row-level-security engine rejects the statement.  Returns the new table and
whether the statement succeeded. -/
def upsertAIAnalysis (db : DB) (uid : String) (row : AIAnalysisRow) :
    List AIAnalysisRow × Bool :=
  match db.ai_analysis.find? (fun r => r.batch_id == row.batch_id) with
  | some _ => (db.ai_analysis, false)
  | none =>
    if aiInsertPolicy db uid row then
      (db.ai_analysis ++ [row], true)
    else
      (db.ai_analysis, false)

/-- The effect of `from("batches").update({ status }).eq("id", batchId)` on
the caller-scoped client: only the rows passing the USING predicate of
"Farmers can update own batches" are affected. -/
def userUpdateBatchStatus (batches : List BatchRow) (uid : String)
    (batchId : String) (newStatus : BatchStatus) : List BatchRow :=
  batches.map (fun b =>
    if b.id == batchId && batchesUpdatePolicy uid b then
      { b with status := newStatus }
    else b)

/-- Outcome of one analyze-batch invocation. -/
structure AnalyzeResult where
  status : Nat
  success : Bool
  db : DB
  analysisSaved : Bool
  gatewayCalled : Bool
  returnedAnalysis : Option Analysis
  deriving DecidableEq, Repr

/-- The analyze-batch handler. -/
def analyzeBatchHandler (db : DB) (a : AuthInput) (batchId : String)
    (gw : LLMGateway) : AnalyzeResult :=
  if !bearerHeaderOk a.header then
    { status := 401, success := false, db := db, analysisSaved := false
      gatewayCalled := false, returnedAnalysis := none }
  else
    match a.resolvedUser with
    | none =>
      { status := 401, success := false, db := db, analysisSaved := false
        gatewayCalled := false, returnedAnalysis := none }
    | some uid =>
      if batchId == "" then
        { status := 400, success := false, db := db, analysisSaved := false
          gatewayCalled := false, returnedAnalysis := none }
      else
        match userSelectBatch db uid batchId with
        | .noRow =>
          { status := 404, success := false, db := db, analysisSaved := false
            gatewayCalled := false, returnedAnalysis := none }
        | .err =>
          { status := 404, success := false, db := db, analysisSaved := false
            gatewayCalled := false, returnedAnalysis := none }
        | .one _ =>
          match gw with
          | .httpFail s =>
            if s == 429 then
              { status := 429, success := false, db := db, analysisSaved := false
                gatewayCalled := true, returnedAnalysis := none }
            else if s == 402 then
              { status := 402, success := false, db := db, analysisSaved := false
                gatewayCalled := true, returnedAnalysis := none }
            else
              -- throw new Error("AI analysis failed") → catch → 500
              { status := 500, success := false, db := db, analysisSaved := false
                gatewayCalled := true, returnedAnalysis := none }
          | .okToolCall payload =>
            let (table, saved) := upsertAIAnalysis db uid (analysisRow batchId payload)
            let db1 : DB := { db with ai_analysis := table }
            let db2 : DB := { db1 with
              batches := userUpdateBatchStatus db1.batches uid batchId .analyzed }
            { status := 200, success := true, db := db2, analysisSaved := saved
              gatewayCalled := true, returnedAnalysis := some payload }
          | .okContentJson payload =>
            let (table, saved) := upsertAIAnalysis db uid (analysisRow batchId payload)
            let db1 : DB := { db with ai_analysis := table }
            let db2 : DB := { db1 with
              batches := userUpdateBatchStatus db1.batches uid batchId .analyzed }
            { status := 200, success := true, db := db2, analysisSaved := saved
              gatewayCalled := true, returnedAnalysis := some payload }
          | .okContentRaw content =>
            let payload := fallbackAnalysis content
            let (table, saved) := upsertAIAnalysis db uid (analysisRow batchId payload)
            let db1 : DB := { db with ai_analysis := table }
            let db2 : DB := { db1 with
              batches := userUpdateBatchStatus db1.batches uid batchId .analyzed }
            { status := 200, success := true, db := db2, analysisSaved := saved
              gatewayCalled := true, returnedAnalysis := some payload }

/-! ### calculate-route handler
(src/supabase/functions/calculate-route/index.ts)

This handler performs no credential check at all: it parses the body, rejects
only an absent/falsy `origin` or `destination` (an object such as
`{lat: 0, lng: 0}` is truthy), requires the API key, calls the routing API
and maps its response.  Every exception inside the `try` block is caught and
turned into a structured 500 JSON error. -/

/-- A latitude/longitude pair as sent by the client. -/
structure Coord where
  lat : Int
  lng : Int
  deriving DecidableEq, Repr

/-- The JSON body of a calculate-route request (`origin`/`destination`
absent or null are modelled as `none`). -/
structure RouteRequest where
  origin : Option Coord
  destination : Option Coord
  deriving DecidableEq, Repr

/-- Outcome of the routing-API call: an HTTP failure (with the upstream
status and the optional `error.message` of its body), a success with no
routes, a success with a first route (distance in meters, duration in
seconds), or a thrown exception during or after the routing-API call (network
failure, malformed response fields such as a missing `duration`, ...). -/
inductive RoutesGateway where
  | httpFail (status : Nat) (msg : Option String)
  | okEmpty
  | okRoute (distanceMeters : Nat) (durationSeconds : Nat)
  | throws
  deriving DecidableEq, Repr

/-- The structured JSON response of the route handler: a 200 route payload or
an error object with its HTTP status. -/
inductive RouteResult where
  | ok (distanceMeters : Nat) (durationSeconds : Nat) (durationText : String)
  | err (status : Nat) (msg : String)
  deriving DecidableEq, Repr

/-- The HTTP status of a route response. -/
def RouteResult.httpStatus : RouteResult → Nat
  | .ok _ _ _ => 200
  | .err s _ => s

/-- The human-readable duration string (`Xh Ymin` or `Y min`). -/
def durationText (durationSeconds : Nat) : String :=
  let hours := durationSeconds / 3600
  let minutes := durationSeconds % 3600 / 60
  if hours > 0 then s!"{hours}h {minutes}min" else s!"{minutes} min"

/-- The calculate-route handler.  `a` is the request's authentication
material, which the source never reads; `apiKeyConfigured` models the
`GOOGLE_API_KEY` secret.  The second component reports whether the routing
API was called. -/
def calculateRouteHandler (a : AuthInput) (req : RouteRequest)
    (apiKeyConfigured : Bool) (gw : RoutesGateway) : RouteResult × Bool :=
  let _ := a
  match req.origin, req.destination with
  | some _, some _ =>
    if !apiKeyConfigured then
      (.err 500 "Google API key not configured", false)
    else
      match gw with
      | .httpFail s msg => (.err s (msg.getD "Failed to calculate route"), true)
      | .okEmpty => (.err 404 "No route found between the specified locations", true)
      | .okRoute d t => (.ok d t (durationText t), true)
      | .throws => (.err 500 "Internal server error", true)
  | _, _ => (.err 400 "Origin and destination coordinates are required", false)

/-! ### Client-side batch operations and their UI guards

The status-changing operations of the observed flow, with the guards under
which the presentation layer invokes them:

* `acceptBatchAsTransporter` (src/unnamed/part_011) is offered by
  BatchDetailSheet.tsx only when `profile.role === 'transporter' &&
  batch.status === 'created'`; it inserts a transport log and writes status
  `assigned_transporter`.
* the TransportUpdateForm submit (src/unnamed/part_004) is offered only when
  `['assigned_transporter', 'picked_up', 'in_transit'].includes(batch.status)`
  and a transport log exists; it writes `picked_up` when the status is
  `assigned_transporter` or `created` (its `action` selection) and
  `delivered` otherwise.
* the VendorReceiptForm submit (VendorReceiptForm.tsx) is offered only when
  the vendor holds a receipt and `batch.status !== 'received' &&
  batch.status !== 'analyzed'`; it writes `received`.
* `runAIAnalysis` invokes the analyze-batch handler, which writes `analyzed`
  unconditionally. -/

/-- The four status-writing operations of the client flow. -/
inductive ClientOp where
  | acceptTransporter
  | transportUpdate
  | confirmReceipt
  | runAnalysis
  deriving DecidableEq, Repr

/-- The guard under which the presentation layer offers each operation, as a
function of the batch status (the role/record-existence parts of the guards
do not mention the status and are omitted here). -/
def opEnabled : ClientOp → BatchStatus → Bool
  | .acceptTransporter, s => s == .created
  | .transportUpdate, s =>
      s == .assigned_transporter || s == .picked_up || s == .in_transit
  | .confirmReceipt, s => !(s == .received) && !(s == .analyzed)
  | .runAnalysis, _ => true

/-- The status value each operation writes (`transportUpdate` picks
`picked_up` or `delivered` from the current status, mirroring the `action`
selection of TransportUpdateForm). -/
def opTarget : ClientOp → BatchStatus → BatchStatus
  | .acceptTransporter, _ => .assigned_transporter
  | .transportUpdate, s =>
      if s == .assigned_transporter || s == .created then .picked_up
      else .delivered
  | .confirmReceipt, _ => .received
  | .runAnalysis, _ => .analyzed

/-- One step of the status state machine: an operation invoked under its
guard writes its target status; a disabled operation is not offered and
leaves the status unchanged. -/
def opStep (s : BatchStatus) (op : ClientOp) : BatchStatus :=
  if opEnabled op s then opTarget op s else s

/-- The status after a sequence of operation invocations. -/
def runOps (s : BatchStatus) (ops : List ClientOp) : BatchStatus :=
  ops.foldl opStep s

/-! ### Vendor claim of a delivered batch

`acceptBatchAsVendor` (src/unnamed/part_011) inserts a `vendor_receipts` row
for the caller.  BatchDetailSheet.tsx offers it when
`profile.role === 'vendor' && batch.status === 'delivered' &&
!batch.vendor_receipt`; the `vendor_receipt` field of the denormalized view
is joined by the useBatches hook from the `vendor_receipts` rows the caller
can SELECT, so the third conjunct quantifies over the receipts visible to the
caller under the "Participants can view receipts" policy. -/

/-- The guard under which BatchDetailSheet offers "Accept Delivery" to a
vendor, evaluated on the caller's RLS-filtered view of the database. -/
def vendorAcceptOffered (db : DB) (uid : String) (batchId : String) : Bool :=
  has_role db uid .vendor
  && db.batches.any (fun b =>
      b.id == batchId && b.status == .delivered && batchesSelectPolicy db uid b)
  && !(db.vendor_receipts.any (fun v =>
      v.batch_id == batchId && vendorReceiptsSelectPolicy db uid v))

/-- The effect of `acceptBatchAsVendor`: insert `{batch_id, vendor_id}` into
`vendor_receipts` through the caller-scoped client ("Vendors can create
receipts" WITH CHECK applies); `none` when the insert is rejected. -/
def acceptBatchAsVendor (db : DB) (uid : String) (batchId : String) :
    Option DB :=
  let row : VendorReceiptRow := { batch_id := batchId, vendor_id := uid }
  if vendorReceiptsInsertPolicy db uid row then
    some { db with vendor_receipts := db.vendor_receipts ++ [row] }
  else
    none

/-! ### Helper lemmas -/

/-- A `maybeSingle` query returning one row means exactly that row matched. -/
lemma maybeSingle_eq_one {α : Type} {l : List α} {a : α}
    (h : maybeSingle l = .one a) : l = [a] := by
  match l with
  | [] => simp [maybeSingle] at h
  | [x] =>
    simp only [maybeSingle, MaybeSingle.one.injEq] at h
    simp [h]
  | x :: y :: rest => simp [maybeSingle] at h

/-- A role listed for a user by `rolesOf` satisfies `has_role`. -/
lemma has_role_of_mem_rolesOf {db : DB} {u : String} {r : AppRole}
    (h : r ∈ rolesOf db u) : has_role db u r = true := by
  unfold rolesOf at h
  rw [List.mem_map] at h
  obtain ⟨p, hp, hr⟩ := h
  rw [List.mem_filter] at hp
  unfold has_role
  rw [List.any_eq_true]
  exact ⟨p, hp.1, by simp [hp.2, hr]⟩

/-- A failed `ai_analysis` upsert leaves the table unchanged. -/
lemma upsertAIAnalysis_not_saved {db : DB} {uid : String} {row : AIAnalysisRow}
    (h : (upsertAIAnalysis db uid row).2 = false) :
    (upsertAIAnalysis db uid row).1 = db.ai_analysis := by
  unfold upsertAIAnalysis at h ⊢
  cases hf : db.ai_analysis.find? (fun r => r.batch_id == row.batch_id) with
  | some r => simp [hf]
  | none =>
    simp only [hf] at h ⊢
    cases hp : aiInsertPolicy db uid row with
    | true => simp [hp] at h
    | false => simp [hp]

/-- A batch row whose farmer is not the caller is untouched by a
caller-scoped status update. -/
lemma mem_userUpdateBatchStatus_of_not_owner {batches : List BatchRow}
    {uid batchId : String} {s : BatchStatus} {b : BatchRow}
    (hb : b ∈ batches) (hown : b.farmer_id ≠ uid) :
    b ∈ userUpdateBatchStatus batches uid batchId s := by
  unfold userUpdateBatchStatus
  have hpol : batchesUpdatePolicy uid b = false := by
    unfold batchesUpdatePolicy
    simp [hown]
  have hmem := List.mem_map_of_mem
    (fun b : BatchRow => if b.id == batchId && batchesUpdatePolicy uid b
      then { b with status := s } else b) hb
  simpa [hpol] using hmem

/-! ### Concrete states used by witnesses and counterexamples -/

/-- An unauthenticated request (no `Authorization` header). -/
def exAuthNone : AuthInput := { header := none, resolvedUser := none }

/-- A request authenticated as the farmer `"f"`. -/
def exAuthF : AuthInput := { header := some "Bearer token", resolvedUser := some "f" }

/-- A request authenticated as the vendor `"v"`. -/
def exAuthV : AuthInput := { header := some "Bearer token", resolvedUser := some "v" }

/-- A concrete analysis payload. -/
def exPayload : Analysis :=
  { degradation_point := "transport stage"
    environmental_impact := "heat exposure"
    confidence_level := "High"
    farmer_suggestions := "harvest earlier"
    transporter_suggestions := "use cooling"
    vendor_suggestions := "inspect on arrival"
    summary := "minor degradation" }

/-- A second, different analysis payload. -/
def exPayload2 : Analysis :=
  { degradation_point := "storage stage"
    environmental_impact := "humidity"
    confidence_level := "Low"
    farmer_suggestions := "dry the crop"
    transporter_suggestions := "ventilate"
    vendor_suggestions := "sell quickly"
    summary := "moderate degradation" }

/-- A valid create-batch body. -/
def exBody : CreateBatchPayload :=
  { crop_type := "wheat"
    harvest_time := "2026-01-24T10:00:00Z"
    expected_quality := "premium"
    quantity_kg := 100
    farm_gps_lat := some 10
    farm_gps_lng := some 20
    farm_address := none
    notes := none }

/-- A database with a farmer `"f"`, a vendor `"v"`, and one batch `"b"` of
`"f"` in status `delivered`; `"v"` holds no receipt and is no participant. -/
def deliveredDB : DB :=
  { user_roles := [("f", .farmer), ("v", .vendor)]
    batches := [{ id := "b", farmer_id := "f", status := .delivered }]
    transport_logs := []
    vendor_receipts := []
    environmental_data := []
    ai_analysis := [] }

/-- A database with a farmer `"f"`, a vendor `"v"` holding the receipt of
batch `"b"`, and the batch in status `received`. -/
def receivedDB : DB :=
  { user_roles := [("f", .farmer), ("v", .vendor)]
    batches := [{ id := "b", farmer_id := "f", status := .received }]
    transport_logs := []
    vendor_receipts := [{ batch_id := "b", vendor_id := "v" }]
    environmental_data := []
    ai_analysis := [] }

/-- A database with two vendors `"v1"`, `"v2"` and a delivered batch `"b"`
owned by farmer `"f"`. -/
def twoVendorDB : DB :=
  { user_roles := [("f", .farmer), ("v1", .vendor), ("v2", .vendor)]
    batches := [{ id := "b", farmer_id := "f", status := .delivered }]
    transport_logs := []
    vendor_receipts := []
    environmental_data := []
    ai_analysis := [] }

/-- `twoVendorDB` after vendor `"v1"` claimed batch `"b"`. -/
def twoVendorDB1 : DB :=
  { twoVendorDB with vendor_receipts := [{ batch_id := "b", vendor_id := "v1" }] }

/-- `twoVendorDB1` after vendor `"v2"` also claimed batch `"b"`. -/
def twoVendorDB2 : DB :=
  { twoVendorDB with vendor_receipts :=
      [{ batch_id := "b", vendor_id := "v1" }, { batch_id := "b", vendor_id := "v2" }] }

/-- A database where user `"w"` holds both the transporter and the vendor
role and batch `"b"` of farmer `"f"` is in status `created`; `"w"` is not a
participant of `"b"`. -/
def dualRoleDB : DB :=
  { user_roles := [("w", .transporter), ("w", .vendor), ("f", .farmer)]
    batches := [{ id := "b", farmer_id := "f", status := .created }]
    transport_logs := []
    vendor_receipts := []
    environmental_data := []
    ai_analysis := [] }

/-- The `created` batch row of `dualRoleDB`. -/
def dualRoleBatch : BatchRow := { id := "b", farmer_id := "f", status := .created }

/-- A valid fetch-environmental-data request for batch `"b"`. -/
def exEnvReq : FetchEnvRequest :=
  { batch_id := "b", stage := "harvest", latitude := 10, longitude := 20 }

/-! ## Claims -/

/-- Claim C4. For every batch and every sequence of handler-performed status
updates, the status only moves forward along the total order `created <
assigned_transporter < picked_up < in_transit < delivered < received <
analyzed`: every status-writing operation, invoked under the guard its call
site imposes, writes a status at least as high as the current one, and hence
any sequence of invocations leaves the status index non-decreasing. -/
theorem claim_C4_status_never_moves_backward :
    (∀ (op : ClientOp) (s : BatchStatus),
      opEnabled op s = true → s.idx ≤ (opTarget op s).idx)
    ∧ ∀ (ops : List ClientOp) (s : BatchStatus), s.idx ≤ (runOps s ops).idx := by
  have hstep : ∀ (op : ClientOp) (s : BatchStatus), s.idx ≤ (opStep s op).idx := by
    intro op s
    cases op <;> cases s <;> decide
  constructor
  · intro op s h
    have := hstep op s
    unfold opStep at this
    rwa [if_pos h] at this
  · intro ops
    induction ops with
    | nil => intro s; simp [runOps]
    | cons op rest ih =>
      intro s
      have h1 : s.idx ≤ (opStep s op).idx := hstep op s
      have h2 : (opStep s op).idx ≤ (runOps (opStep s op) rest).idx := ih (opStep s op)
      have hrun : runOps s (op :: rest) = runOps (opStep s op) rest := by
        simp [runOps]
      rw [hrun]
      exact le_trans h1 h2

/-- Witness for C4: a transporter claim of a `created` batch moves the status
forward. -/
theorem claim_C4_witness :
    BatchStatus.created.idx ≤ (opTarget .acceptTransporter .created).idx :=
  claim_C4_status_never_moves_backward.1 .acceptTransporter .created (by decide)

/-- Claim C8. For the route-calculation handler with `origin = (0,0)` and
`destination = (0,0)` the handler does not crash: for every routing-API
outcome (and every authentication input, which the handler ignores) the
response is a structured route payload or a structured JSON error; a
zero-distance upstream route yields the degenerate zero-distance 200 result,
and an empty route list yields the structured 404 "no route" error. -/
theorem claim_C8_zero_coordinates_route :
    ∀ (a : AuthInput) (key : Bool) (gw : RoutesGateway),
      ((∃ d t s, (calculateRouteHandler a
          { origin := some { lat := 0, lng := 0 }
            destination := some { lat := 0, lng := 0 } } key gw).1
          = .ok d t s)
        ∨ (∃ s m, (calculateRouteHandler a
          { origin := some { lat := 0, lng := 0 }
            destination := some { lat := 0, lng := 0 } } key gw).1
          = .err s m))
      ∧ (∀ t, gw = .okRoute 0 t → key = true →
          (calculateRouteHandler a
            { origin := some { lat := 0, lng := 0 }
              destination := some { lat := 0, lng := 0 } } key gw).1
            = .ok 0 t (durationText t))
      ∧ (gw = .okEmpty → key = true →
          (calculateRouteHandler a
            { origin := some { lat := 0, lng := 0 }
              destination := some { lat := 0, lng := 0 } } key gw).1
            = .err 404 "No route found between the specified locations") := by
  intro a key gw
  refine ⟨?_, ?_, ?_⟩
  · cases key with
    | false => right; exact ⟨500, "Google API key not configured", rfl⟩
    | true =>
      cases gw with
      | httpFail s msg => right; exact ⟨s, msg.getD "Failed to calculate route", rfl⟩
      | okEmpty => right; exact ⟨404, "No route found between the specified locations", rfl⟩
      | okRoute d t => left; exact ⟨d, t, durationText t, rfl⟩
      | throws => right; exact ⟨500, "Internal server error", rfl⟩
  · intro t hgw hkey
    subst hgw; subst hkey
    rfl
  · intro hgw hkey
    subst hgw; subst hkey
    rfl

/-- Witness for C8: with a zero-distance upstream route the degenerate
zero-distance result is returned. -/
theorem claim_C8_witness :
    (calculateRouteHandler exAuthNone
      { origin := some { lat := 0, lng := 0 }
        destination := some { lat := 0, lng := 0 } } true (.okRoute 0 0)).1
      = .ok 0 0 (durationText 0) :=
  (claim_C8_zero_coordinates_route exAuthNone true (.okRoute 0 0)).2.1 0 rfl rfl

/-- Claim C2, counterexample. The route-calculation handler, given a request
with no `Authorization` header at all and a valid body, does not return
HTTP 401 and does call the external routing API — refuting the claim that
every external-integration handler (the route-calculation handler included)
returns 401 and performs no external call without a valid bearer
credential. -/
theorem claim_C2_counterexample :
    (calculateRouteHandler exAuthNone
      { origin := some { lat := 10, lng := 20 }
        destination := some { lat := 30, lng := 40 } } true (.okRoute 5000 600)).2
      = true
    ∧ (calculateRouteHandler exAuthNone
      { origin := some { lat := 10, lng := 20 }
        destination := some { lat := 30, lng := 40 } } true (.okRoute 5000 600)).1.httpStatus
      ≠ 401
    ∧ authValid exAuthNone = false := by
  refine ⟨rfl, ?_, rfl⟩
  decide

/-- Claim C2, amended. The three bearer-checking handlers (create-batch,
fetch-environmental-data, analyze-batch) return HTTP 401, perform no external
API call and leave the database unchanged whenever the request has no valid
bearer credential; the route-calculation handler performs no credential check
(see the counterexample). -/
theorem claim_C2_unauthenticated_requests :
    ∀ (db : DB) (a : AuthInput), authValid a = false →
      (∀ (body : CreateBatchPayload) (nid : String) (ins : Bool)
          (w : Option WeatherData) (envOk : Bool),
        (createBatchHandler db a body nid ins w envOk).status = 401
        ∧ (createBatchHandler db a body nid ins w envOk).insertedBatch = none
        ∧ (createBatchHandler db a body nid ins w envOk).db = db
        ∧ (createBatchHandler db a body nid ins w envOk).weatherFetched = false)
      ∧ (∀ (req : FetchEnvRequest) (gw : EnvGateway),
        (fetchEnvironmentalDataHandler db a req gw).status = 401
        ∧ (fetchEnvironmentalDataHandler db a req gw).insertedRow = none
        ∧ (fetchEnvironmentalDataHandler db a req gw).db = db
        ∧ (fetchEnvironmentalDataHandler db a req gw).gatewayCalled = false)
      ∧ (∀ (bid : String) (gw : LLMGateway),
        (analyzeBatchHandler db a bid gw).status = 401
        ∧ (analyzeBatchHandler db a bid gw).success = false
        ∧ (analyzeBatchHandler db a bid gw).db = db
        ∧ (analyzeBatchHandler db a bid gw).gatewayCalled = false) := by
  intro db a hauth
  unfold authValid at hauth
  rw [Bool.and_eq_false_iff] at hauth
  cases hauth with
  | inl hb =>
    refine ⟨?_, ?_, ?_⟩
    · intro body nid ins w envOk
      unfold createBatchHandler
      simp [hb]
    · intro req gw
      unfold fetchEnvironmentalDataHandler
      simp [hb]
    · intro bid gw
      unfold analyzeBatchHandler
      simp [hb]
  | inr hr =>
    rw [Bool.eq_false_iff, Ne, Option.isSome_iff_exists] at hr
    push_neg at hr
    have hr : a.resolvedUser = none := Option.eq_none_iff_forall_not_mem.mpr
      (fun x hx => hr x hx)
    cases hb : bearerHeaderOk a.header with
    | false =>
      refine ⟨?_, ?_, ?_⟩
      · intro body nid ins w envOk
        unfold createBatchHandler
        simp [hb]
      · intro req gw
        unfold fetchEnvironmentalDataHandler
        simp [hb]
      · intro bid gw
        unfold analyzeBatchHandler
        simp [hb]
    | true =>
      refine ⟨?_, ?_, ?_⟩
      · intro body nid ins w envOk
        unfold createBatchHandler
        simp [hb, hr]
      · intro req gw
        unfold fetchEnvironmentalDataHandler
        simp [hb, hr]
      · intro bid gw
        unfold analyzeBatchHandler
        simp [hb, hr]

/-- Witness for the amended C2: an unauthenticated fetch-environmental-data
request gets 401 and triggers no gateway call and no write. -/
theorem claim_C2_witness :
    (fetchEnvironmentalDataHandler deliveredDB exAuthNone exEnvReq .okNoToolCall).status = 401
    ∧ (fetchEnvironmentalDataHandler deliveredDB exAuthNone exEnvReq .okNoToolCall).insertedRow = none
    ∧ (fetchEnvironmentalDataHandler deliveredDB exAuthNone exEnvReq .okNoToolCall).db = deliveredDB
    ∧ (fetchEnvironmentalDataHandler deliveredDB exAuthNone exEnvReq .okNoToolCall).gatewayCalled = false :=
  (claim_C2_unauthenticated_requests deliveredDB exAuthNone (by decide)).2.1
    exEnvReq .okNoToolCall

/-- Claim C10. A fetch-environmental-data request with `latitude = 0` or
`longitude = 0` (from an authenticated caller) is answered with HTTP 400 —
the zero coordinate is treated as a missing field by JavaScript truthiness —
with no gateway call and no persisted row; likewise a create-batch request
with `quantity_kg = 0` (from an authenticated caller whose single recorded
role is farmer, so that the earlier role check passes) is answered with
HTTP 400, with no batch row persisted. -/
theorem claim_C10_zero_valued_fields_rejected :
    (∀ (db : DB) (a : AuthInput) (uid : String) (req : FetchEnvRequest)
        (gw : EnvGateway),
      bearerHeaderOk a.header = true → a.resolvedUser = some uid →
      (req.latitude = 0 ∨ req.longitude = 0) →
        (fetchEnvironmentalDataHandler db a req gw).status = 400
        ∧ (fetchEnvironmentalDataHandler db a req gw).insertedRow = none
        ∧ (fetchEnvironmentalDataHandler db a req gw).db = db
        ∧ (fetchEnvironmentalDataHandler db a req gw).gatewayCalled = false)
    ∧ ∀ (db : DB) (a : AuthInput) (uid : String) (body : CreateBatchPayload)
        (nid : String) (ins : Bool) (w : Option WeatherData) (envOk : Bool),
      bearerHeaderOk a.header = true → a.resolvedUser = some uid →
      rolesOf db uid = [.farmer] →
      body.quantity_kg = 0 →
        (createBatchHandler db a body nid ins w envOk).status = 400
        ∧ (createBatchHandler db a body nid ins w envOk).insertedBatch = none
        ∧ (createBatchHandler db a body nid ins w envOk).db = db
        ∧ (createBatchHandler db a body nid ins w envOk).weatherFetched = false := by
  constructor
  · intro db a uid req gw hb hu hzero
    unfold fetchEnvironmentalDataHandler
    have hcond : (req.batch_id == "" || req.stage == ""
        || req.latitude == 0 || req.longitude == 0) = true := by
      cases hzero with
      | inl h => simp [h]
      | inr h => simp [h]
    simp [hb, hu, hcond]
  · intro db a uid body nid ins w envOk hb hu hroles hq
    unfold createBatchHandler
    have hms : maybeSingle (rolesOf db uid) = .one .farmer := by
      rw [hroles]; rfl
    have hcond : (body.crop_type == "" || body.harvest_time == ""
        || body.expected_quality == "" || body.quantity_kg == 0) = true := by
      simp [hq]
    simp [hb, hu, hms, hcond]

/-- Witness for C10: a fetch-environmental-data request at latitude 0 is
rejected with 400 and nothing is called or stored. -/
theorem claim_C10_witness :
    (fetchEnvironmentalDataHandler deliveredDB exAuthF
      { batch_id := "b", stage := "harvest", latitude := 0, longitude := 20 }
      .okNoToolCall).status = 400
    ∧ (fetchEnvironmentalDataHandler deliveredDB exAuthF
      { batch_id := "b", stage := "harvest", latitude := 0, longitude := 20 }
      .okNoToolCall).insertedRow = none
    ∧ (fetchEnvironmentalDataHandler deliveredDB exAuthF
      { batch_id := "b", stage := "harvest", latitude := 0, longitude := 20 }
      .okNoToolCall).db = deliveredDB
    ∧ (fetchEnvironmentalDataHandler deliveredDB exAuthF
      { batch_id := "b", stage := "harvest", latitude := 0, longitude := 20 }
      .okNoToolCall).gatewayCalled = false :=
  claim_C10_zero_valued_fields_rejected.1 deliveredDB exAuthF "f"
    { batch_id := "b", stage := "harvest", latitude := 0, longitude := 20 }
    .okNoToolCall (by decide) rfl (Or.inl rfl)

/-- Claim C7, counterexample. User `"w"` holds both the vendor and the
transporter role (the schema's `user_roles` allows several roles per user and
the "Users can insert own role" policy lets a user add them), is not a
participant of batch `"b"`, and `"b"` is in status `created` — yet the
batch-select policy set grants `"w"` visibility of `"b"`.  This refutes the
claim's per-role equivalence: a caller with the vendor role can here select a
batch whose status is neither `in_transit` nor `delivered`. -/
theorem claim_C7_counterexample :
    has_role dualRoleDB "w" .vendor = true
    ∧ is_batch_participant dualRoleDB "b" "w" = false
    ∧ dualRoleBatch.status = .created
    ∧ ¬(dualRoleBatch.status = .in_transit ∨ dualRoleBatch.status = .delivered)
    ∧ batchesSelectPolicy dualRoleDB "w" dualRoleBatch = true := by
  decide

/-- Claim C7, amended. For every batch `b` and non-participant caller `u`, the
batch-select policy set grants `u` visibility of `b` exactly when `u` holds
the transporter role and `b` is in status `created`, or `u` holds the vendor
role and `b` is in status `in_transit` or `delivered`; for a caller holding
exactly one of the two roles this reduces to the claim's per-role
equivalences. -/
theorem claim_C7_nonparticipant_visibility :
    ∀ (db : DB) (u : String) (b : BatchRow),
      is_batch_participant db b.id u = false →
      (batchesSelectPolicy db u b = true ↔
        ((has_role db u .transporter = true ∧ b.status = .created)
          ∨ (has_role db u .vendor = true
              ∧ (b.status = .in_transit ∨ b.status = .delivered)))) := by
  intro db u b hpart
  unfold batchesSelectPolicy
  rw [hpart]
  simp [Bool.or_eq_true, Bool.and_eq_true]

/-- Witness for the amended C7: a single-role vendor may select a `delivered`
batch it does not participate in. -/
theorem claim_C7_witness :
    batchesSelectPolicy deliveredDB "v"
      { id := "b", farmer_id := "f", status := .delivered } = true :=
  (claim_C7_nonparticipant_visibility deliveredDB "v"
    { id := "b", farmer_id := "f", status := .delivered } (by decide)).mpr
    (Or.inr ⟨by decide, Or.inr rfl⟩)

/-- No two `ai_analysis` rows share a `batch_id` (the UNIQUE constraint of
the schema). -/
def aiAnalysisUnique (l : List AIAnalysisRow) : Prop :=
  l.Pairwise (fun x y => x.batch_id ≠ y.batch_id)

/-- Claim C5, counterexample. Starting from a database with one `delivered`
batch and two vendors, vendor `"v1"` is offered the claim and performs it;
afterwards vendor `"v2"` — to whom `"v1"`'s receipt is invisible, since the
receipt SELECT policy only admits participants — is offered the claim as well
and also performs it, and both inserts pass the receipt INSERT policy.  The
final state carries two VendorReceipt rows for batch `"b"`, refuting the
claim that no operation can produce a second row of these types. -/
theorem claim_C5_counterexample :
    vendorAcceptOffered twoVendorDB "v1" "b" = true
    ∧ acceptBatchAsVendor twoVendorDB "v1" "b" = some twoVendorDB1
    ∧ vendorAcceptOffered twoVendorDB1 "v2" "b" = true
    ∧ acceptBatchAsVendor twoVendorDB1 "v2" "b" = some twoVendorDB2
    ∧ (twoVendorDB2.vendor_receipts.filter (fun v => v.batch_id == "b")).length = 2 := by
  decide

/-- Claim C5, amended. A batch has at most one AIAnalysis row at all times:
the analyze-batch handler (the only writer of `ai_analysis`) preserves
batch_id-uniqueness of the table, since its upsert inserts only when no row
for the batch exists and otherwise leaves the table unchanged.  The analogous
uniqueness for TransportLog and VendorReceipt rows is *not* enforced — no
constraint or policy prevents a second claim from inserting a second row for
the same batch (see the counterexample). -/
theorem claim_C5_ai_analysis_unique :
    ∀ (db : DB) (a : AuthInput) (bid : String) (gw : LLMGateway),
      aiAnalysisUnique db.ai_analysis →
      aiAnalysisUnique (analyzeBatchHandler db a bid gw).db.ai_analysis := by
  have hup : ∀ (db : DB) (uid : String) (row : AIAnalysisRow),
      aiAnalysisUnique db.ai_analysis →
      aiAnalysisUnique (upsertAIAnalysis db uid row).1 := by
    intro db uid row h
    unfold upsertAIAnalysis
    cases hf : db.ai_analysis.find? (fun r => r.batch_id == row.batch_id) with
    | some r => simp only [hf]; exact h
    | none =>
      simp only [hf]
      cases hp : aiInsertPolicy db uid row with
      | false => simp [hp]; exact h
      | true =>
        simp only [hp, if_true]
        unfold aiAnalysisUnique at h ⊢
        rw [List.pairwise_append]
        refine ⟨h, List.pairwise_singleton _ _, ?_⟩
        intro x hx y hy
        rw [List.mem_singleton] at hy
        subst hy
        have := List.find?_eq_none.mp hf x hx
        simpa using this
  intro db a bid gw h
  unfold analyzeBatchHandler
  cases hb : bearerHeaderOk a.header with
  | false => simpa using h
  | true =>
    simp only [hb, Bool.not_true, Bool.false_eq_true, if_false]
    cases hu : a.resolvedUser with
    | none => exact h
    | some uid =>
      by_cases hbid : (bid == "") = true
      · simp only [hbid, if_true]; exact h
      · simp only [hbid, if_false]
        cases hsel : userSelectBatch db uid bid with
        | noRow => exact h
        | err => exact h
        | one b0 =>
          cases gw with
          | httpFail s =>
            by_cases h429 : (s == 429) = true
            · simp only [h429, if_true]; exact h
            · by_cases h402 : (s == 402) = true
              · simp only [h429, if_false, h402, if_true]; exact h
              · simp only [h429, if_false, h402, if_false]; exact h
          | okToolCall payload => exact hup db uid (analysisRow bid payload) h
          | okContentJson payload => exact hup db uid (analysisRow bid payload) h
          | okContentRaw content => exact hup db uid (analysisRow bid (fallbackAnalysis content)) h

/-- Witness for the amended C5: analysing a batch in a database with an empty
`ai_analysis` table yields a table with pairwise-distinct batch ids. -/
theorem claim_C5_witness :
    aiAnalysisUnique (analyzeBatchHandler receivedDB exAuthF "b"
      (.okToolCall exPayload)).db.ai_analysis :=
  claim_C5_ai_analysis_unique receivedDB exAuthF "b" (.okToolCall exPayload)
    (by unfold aiAnalysisUnique; decide)

/-- The first analyze-batch run of the C6 scenario: the batch's farmer
analyses the `received` batch `"b"` with payload `exPayload`. -/
def analyzeRunOne : AnalyzeResult :=
  analyzeBatchHandler receivedDB exAuthF "b" (.okToolCall exPayload)

/-- The second analyze-batch run of the C6 scenario: the same caller analyses
the same batch again, the gateway now returning the different payload
`exPayload2`. -/
def analyzeRunTwo : AnalyzeResult :=
  analyzeBatchHandler analyzeRunOne.db exAuthF "b" (.okToolCall exPayload2)

/-- Claim C6, counterexample. Invoking the analysis handler twice for the same
batch id leaves exactly one AIAnalysis row, but the second invocation does
*not* overwrite the row produced by the first: the upsert's conflict-update
path is rejected (the `ai_analysis` table has no UPDATE policy and the
handler writes through the caller-scoped client), so the stored row still
carries the first payload although the second run reported success with a
different payload. -/
theorem claim_C6_counterexample :
    analyzeRunOne.analysisSaved = true
    ∧ analyzeRunTwo.status = 200
    ∧ analyzeRunTwo.success = true
    ∧ analyzeRunTwo.analysisSaved = false
    ∧ analyzeRunTwo.db.ai_analysis = [analysisRow "b" exPayload]
    ∧ analysisRow "b" exPayload2 ≠ analysisRow "b" exPayload := by
  decide

/-- Claim C6, amended. Invoking the analysis handler twice for the same
batch_id leaves exactly one AIAnalysis row for that batch — the second
invocation does not insert a duplicate — but instead of overwriting, its
upsert is rejected by row-level security (`ai_analysis` has no UPDATE
policy), so the row keeps the first invocation's values while the second
invocation still reports success: for all payloads `a1`, `a2`, after the
batch's farmer runs the handler twice over `receivedDB`, the table holds
exactly the row of `a1` and the second run answers 200 with
`success = true`. -/
theorem claim_C6_second_invocation_no_duplicate :
    ∀ (a1 a2 : Analysis),
      (analyzeBatchHandler receivedDB exAuthF "b" (.okToolCall a1)).analysisSaved = true
      ∧ (analyzeBatchHandler
          (analyzeBatchHandler receivedDB exAuthF "b" (.okToolCall a1)).db
          exAuthF "b" (.okToolCall a2)).db.ai_analysis = [analysisRow "b" a1]
      ∧ (analyzeBatchHandler
          (analyzeBatchHandler receivedDB exAuthF "b" (.okToolCall a1)).db
          exAuthF "b" (.okToolCall a2)).status = 200
      ∧ (analyzeBatchHandler
          (analyzeBatchHandler receivedDB exAuthF "b" (.okToolCall a1)).db
          exAuthF "b" (.okToolCall a2)).success = true
      ∧ (analyzeBatchHandler
          (analyzeBatchHandler receivedDB exAuthF "b" (.okToolCall a1)).db
          exAuthF "b" (.okToolCall a2)).analysisSaved = false := by
  intro a1 a2
  exact ⟨rfl, rfl, rfl, rfl, rfl⟩

/-- The analyze-batch run of the C9 scenario: vendor `"v"` — who can see the
`delivered` batch `"b"` through the vendor SELECT window but is not a
participant — invokes the handler; the LLM call succeeds but the row insert
is rejected by the participant INSERT policy. -/
def analyzeVendorRun : AnalyzeResult :=
  analyzeBatchHandler deliveredDB exAuthV "b" (.okToolCall exPayload)

/-- Claim C9, counterexample. An analyze-batch invocation in which the LLM call
succeeds but persisting the AIAnalysis row fails (here: the caller is not a
participant, so the insert violates the WITH CHECK policy) returns HTTP 200
with `success: true` — but it does *not* update the batch's status to
`analyzed`: the status update runs through the caller-scoped client, and the
only UPDATE policy on `batches` admits the batch's farmer, so for this vendor
caller the batch stays `delivered`.  This refutes the claim that every such
invocation still updates the status to `analyzed`. -/
theorem claim_C9_counterexample :
    analyzeVendorRun.status = 200
    ∧ analyzeVendorRun.success = true
    ∧ analyzeVendorRun.returnedAnalysis = some exPayload
    ∧ analyzeVendorRun.analysisSaved = false
    ∧ analyzeVendorRun.db.ai_analysis = []
    ∧ analyzeVendorRun.db.batches
        = [{ id := "b", farmer_id := "f", status := .delivered }] := by
  decide

/-- Claim C9, amended. For every analyze-batch invocation in which the LLM call
succeeds but persisting the AIAnalysis row fails, the handler still returns
HTTP 200 with `success: true` carrying the in-memory analysis and leaves the
`ai_analysis` table unchanged; the batch-status update it issues is applied
under the farmer-only UPDATE policy of `batches`, so every batch row whose
farmer is not the caller keeps its old status. -/
theorem claim_C9_save_failure_still_succeeds :
    ∀ (db : DB) (a : AuthInput) (uid bid : String) (gw : LLMGateway)
      (payload : Analysis) (b0 : BatchRow),
      bearerHeaderOk a.header = true →
      a.resolvedUser = some uid →
      (bid == "") = false →
      userSelectBatch db uid bid = .one b0 →
      gatewayAnalysis gw = some payload →
      (analyzeBatchHandler db a bid gw).status = 200
      ∧ (analyzeBatchHandler db a bid gw).success = true
      ∧ (analyzeBatchHandler db a bid gw).returnedAnalysis = some payload
      ∧ ((analyzeBatchHandler db a bid gw).analysisSaved = false →
          (analyzeBatchHandler db a bid gw).db.ai_analysis = db.ai_analysis)
      ∧ ∀ b ∈ db.batches, b.farmer_id ≠ uid →
          b ∈ (analyzeBatchHandler db a bid gw).db.batches := by
  intro db a uid bid gw payload b0 hb hu hbid hsel hgw
  cases gw with
  | httpFail s => simp [gatewayAnalysis] at hgw
  | okToolCall p =>
    rw [gatewayAnalysis, Option.some.injEq] at hgw
    subst hgw
    unfold analyzeBatchHandler
    simp only [hb, Bool.not_true, Bool.false_eq_true, if_false, hu, hbid, hsel]
    refine ⟨trivial, trivial, trivial, ?_, ?_⟩
    · intro hns
      exact upsertAIAnalysis_not_saved hns
    · intro b hmem hown
      exact mem_userUpdateBatchStatus_of_not_owner hmem hown
  | okContentJson p =>
    rw [gatewayAnalysis, Option.some.injEq] at hgw
    subst hgw
    unfold analyzeBatchHandler
    simp only [hb, Bool.not_true, Bool.false_eq_true, if_false, hu, hbid, hsel]
    refine ⟨trivial, trivial, trivial, ?_, ?_⟩
    · intro hns
      exact upsertAIAnalysis_not_saved hns
    · intro b hmem hown
      exact mem_userUpdateBatchStatus_of_not_owner hmem hown
  | okContentRaw c =>
    rw [gatewayAnalysis, Option.some.injEq] at hgw
    subst hgw
    unfold analyzeBatchHandler
    simp only [hb, Bool.not_true, Bool.false_eq_true, if_false, hu, hbid, hsel]
    refine ⟨trivial, trivial, trivial, ?_, ?_⟩
    · intro hns
      exact upsertAIAnalysis_not_saved hns
    · intro b hmem hown
      exact mem_userUpdateBatchStatus_of_not_owner hmem hown

/-- Witness for the amended C9: the vendor scenario instantiated through the
theorem — 200 with `success: true` and the non-farmer-owned batch row
untouched. -/
theorem claim_C9_witness :
    (analyzeBatchHandler deliveredDB exAuthV "b" (.okToolCall exPayload)).status = 200
    ∧ (analyzeBatchHandler deliveredDB exAuthV "b" (.okToolCall exPayload)).success = true
    ∧ (analyzeBatchHandler deliveredDB exAuthV "b" (.okToolCall exPayload)).returnedAnalysis
        = some exPayload
    ∧ ((analyzeBatchHandler deliveredDB exAuthV "b" (.okToolCall exPayload)).analysisSaved = false →
        (analyzeBatchHandler deliveredDB exAuthV "b" (.okToolCall exPayload)).db.ai_analysis
          = deliveredDB.ai_analysis)
    ∧ ∀ b ∈ deliveredDB.batches, b.farmer_id ≠ "v" →
        b ∈ (analyzeBatchHandler deliveredDB exAuthV "b" (.okToolCall exPayload)).db.batches :=
  claim_C9_save_failure_still_succeeds deliveredDB exAuthV "v" "b"
    (.okToolCall exPayload) exPayload
    { id := "b", farmer_id := "f", status := .delivered }
    (by decide) rfl (by decide) (by decide) rfl

/-- Claim C3, counterexample. A fetch-environmental-data request whose upstream
weather lookup fails at the HTTP level (here: the gateway answers 500) does
*not* return success and stores no row at all: the handler maps the failure
to its own 500 error response.  The documented fallback constants are only
used when the gateway call itself succeeds. -/
theorem claim_C3_counterexample :
    (fetchEnvironmentalDataHandler deliveredDB exAuthF exEnvReq (.httpFail 500)).status = 500
    ∧ (fetchEnvironmentalDataHandler deliveredDB exAuthF exEnvReq (.httpFail 500)).insertedRow = none
    ∧ (fetchEnvironmentalDataHandler deliveredDB exAuthF exEnvReq (.httpFail 500)).db
        = deliveredDB := by
  decide

/-- Claim C3, amended. When the upstream weather lookup *succeeds at the HTTP
level but returns no structured tool call*, the handler still returns success
and the stored EnvironmentalData row has exactly the fallback values
temperature 25 °C, humidity 60 %, AQI 50, UV 5, precipitation 0 mm, wind
10 km/h (and condition "Unknown"); an HTTP-level failure of the lookup
instead fails the request — 429 and 402 are passed through and every other
failure status yields 500 — with no stored row. -/
theorem claim_C3_fallback_values :
    ∀ (db : DB) (a : AuthInput) (uid : String) (req : FetchEnvRequest),
      bearerHeaderOk a.header = true →
      a.resolvedUser = some uid →
      (req.batch_id == "" || req.stage == ""
        || req.latitude == 0 || req.longitude == 0) = false →
      is_batch_participant db req.batch_id uid = true →
      ((fetchEnvironmentalDataHandler db a req .okNoToolCall).status = 200
        ∧ (fetchEnvironmentalDataHandler db a req .okNoToolCall).insertedRow
            = some (fetchEnvRow req fallbackEnvValues)
        ∧ (fetchEnvironmentalDataHandler db a req .okNoToolCall).db.environmental_data
            = db.environmental_data ++ [fetchEnvRow req fallbackEnvValues])
      ∧ ∀ (s : Nat), (s == 429) = false → (s == 402) = false →
          (fetchEnvironmentalDataHandler db a req (.httpFail s)).status = 500
          ∧ (fetchEnvironmentalDataHandler db a req (.httpFail s)).insertedRow = none
          ∧ (fetchEnvironmentalDataHandler db a req (.httpFail s)).db = db := by
  intro db a uid req hb hu hfields hpart
  have hpol : envInsertPolicy db uid (fetchEnvRow req fallbackEnvValues) = true := by
    unfold envInsertPolicy fetchEnvRow
    exact hpart
  constructor
  · unfold fetchEnvironmentalDataHandler
    simp only [hb, Bool.not_true, Bool.false_eq_true, if_false, hu, hfields, hpol, if_true]
    exact ⟨trivial, trivial, trivial⟩
  · intro s h429 h402
    unfold fetchEnvironmentalDataHandler
    simp only [hb, Bool.not_true, Bool.false_eq_true, if_false, hu, hfields, h429, h402]
    exact ⟨trivial, trivial, trivial⟩

/-- Witness for the amended C3: the farmer fetches environmental data for its
own batch, the gateway succeeds without a tool call, and the stored row
carries exactly the fallback constants. -/
theorem claim_C3_witness :
    (fetchEnvironmentalDataHandler deliveredDB exAuthF exEnvReq .okNoToolCall).status = 200
    ∧ (fetchEnvironmentalDataHandler deliveredDB exAuthF exEnvReq .okNoToolCall).insertedRow
        = some (fetchEnvRow exEnvReq fallbackEnvValues)
    ∧ (fetchEnvironmentalDataHandler deliveredDB exAuthF exEnvReq .okNoToolCall).db.environmental_data
        = deliveredDB.environmental_data ++ [fetchEnvRow exEnvReq fallbackEnvValues] :=
  (claim_C3_fallback_values deliveredDB exAuthF "f" exEnvReq
    (by decide) rfl (by decide) (by decide)).1

/-- Claim C1. An insert into `batches` succeeds only for a caller who is the
row's farmer and holds the farmer role: (1) the database-layer INSERT policy
accepts a row exactly when the caller's id equals the row's `farmer_id` and
the caller has the farmer role; (2) any batch the create-batch handler
inserts names the resolved caller as its `farmer_id`, and that caller holds
the farmer role; (3) an authenticated caller without the farmer role never
gets a batch inserted by the handler, and is rejected with HTTP 403 (or 500
when the `maybeSingle` role lookup errors on multiple role rows). -/
theorem claim_C1_insert_requires_owning_farmer :
    (∀ (db : DB) (uid : String) (row : BatchRow),
      batchesInsertPolicy db uid row = true ↔
        (uid = row.farmer_id ∧ has_role db uid .farmer = true))
    ∧ (∀ (db : DB) (a : AuthInput) (body : CreateBatchPayload) (nid : String)
        (ins : Bool) (w : Option WeatherData) (envOk : Bool) (b : BatchRow),
      (createBatchHandler db a body nid ins w envOk).insertedBatch = some b →
        a.resolvedUser = some b.farmer_id
        ∧ has_role db b.farmer_id .farmer = true)
    ∧ ∀ (db : DB) (a : AuthInput) (uid : String) (body : CreateBatchPayload)
        (nid : String) (ins : Bool) (w : Option WeatherData) (envOk : Bool),
      bearerHeaderOk a.header = true →
      a.resolvedUser = some uid →
      has_role db uid .farmer = false →
        (createBatchHandler db a body nid ins w envOk).insertedBatch = none
        ∧ ((createBatchHandler db a body nid ins w envOk).status = 403
            ∨ (createBatchHandler db a body nid ins w envOk).status = 500) := by
  refine ⟨?_, ?_, ?_⟩
  · intro db uid row
    unfold batchesInsertPolicy
    rw [Bool.and_eq_true, beq_iff_eq]
  · intro db a body nid ins w envOk b h
    unfold createBatchHandler at h
    split at h
    · exact absurd h (by simp)
    · split at h
      · exact absurd h (by simp)
      next uid huid =>
        split at h
        · exact absurd h (by simp)
        · exact absurd h (by simp)
        next r hms =>
          split at h
          · exact absurd h (by simp)
          next hrne =>
            have hrf : r = AppRole.farmer := by
              simpa [bne_iff_ne] using hrne
            have hmem : AppRole.farmer ∈ rolesOf db uid := by
              rw [maybeSingle_eq_one hms, hrf]
              exact List.mem_singleton_self _
            have hrole := has_role_of_mem_rolesOf hmem
            split at h
            · exact absurd h (by simp)
            · cases ins with
              | false => simp at h
              | true =>
                simp only [Bool.not_true, Bool.false_eq_true, if_false] at h
                by_cases hgps : (truthyOptNum body.farm_gps_lat
                    && truthyOptNum body.farm_gps_lng) = true
                · cases w with
                  | some wd =>
                    by_cases henv : envOk = true
                    · simp only [hgps, if_true, henv] at h
                      simp only [Option.some.injEq] at h
                      subst h
                      exact ⟨huid, hrole⟩
                    · simp only [hgps, if_true, if_neg henv] at h
                      simp only [Option.some.injEq] at h
                      subst h
                      exact ⟨huid, hrole⟩
                  | none =>
                    simp only [hgps, if_true] at h
                    simp only [Option.some.injEq] at h
                    subst h
                    exact ⟨huid, hrole⟩
                · simp only [hgps, Bool.false_eq_true, if_false] at h
                  simp only [Option.some.injEq] at h
                  subst h
                  exact ⟨huid, hrole⟩
  · intro db a uid body nid ins w envOk hb hu hrole
    unfold createBatchHandler
    simp only [hb, Bool.not_true, Bool.false_eq_true, if_false, hu]
    cases hms : maybeSingle (rolesOf db uid) with
    | err => exact ⟨by trivial, Or.inr (by trivial)⟩
    | noRow => exact ⟨by trivial, Or.inl (by trivial)⟩
    | one r =>
      have hrne : r ≠ AppRole.farmer := by
        intro hrf
        subst hrf
        have hmem : AppRole.farmer ∈ rolesOf db uid := by
          rw [maybeSingle_eq_one hms]
          exact List.mem_singleton_self _
        rw [has_role_of_mem_rolesOf hmem] at hrole
        exact Bool.noConfusion hrole
      have hbne : (r != AppRole.farmer) = true := by
        simp [bne_iff_ne, hrne]
      simp only [hbne]
      exact ⟨by trivial, Or.inl (by trivial)⟩

/-- Witness for C1: the vendor `"v"` calling create-batch over `deliveredDB`
gets no batch inserted and is rejected with 403 (or a 500 lookup error). -/
theorem claim_C1_witness :
    (createBatchHandler deliveredDB exAuthV exBody "nb" true none true).insertedBatch = none
    ∧ ((createBatchHandler deliveredDB exAuthV exBody "nb" true none true).status = 403
        ∨ (createBatchHandler deliveredDB exAuthV exBody "nb" true none true).status = 500) :=
  claim_C1_insert_requires_owning_farmer.2.2 deliveredDB exAuthV "v" exBody
    "nb" true none true (by decide) rfl (by decide)

end BeyondTheFarm
